import Mathlib

/-!
# Verification of the TxVoc backend (src/backend/main.py)

A shallow embedding of the FastAPI service in `src/backend/main.py`.
The two process-wide dictionaries (`voices_db`, `synthesis_cache`) and the
on-disk storage are modelled as association lists; handlers become pure
functions from a `ServerState` (plus the nondeterministic inputs the code
draws from `uuid.uuid4()` and `datetime.now()`, passed as explicit
parameters) to a result together with the successor state.  Python floats
are modelled as exact rationals.
-/

set_option autoImplicit false

/-- Association-list lookup, mirroring Python `d[k]` / `k in d` on a dict
(first matching key wins; the insert below keeps keys unique). -/
def dictLookup {α : Type} : List (String × α) → String → Option α
  | [], _ => none
  | e :: es, k => if e.1 = k then some e.2 else dictLookup es k

/-- Python `k in d`. -/
def dictContains {α : Type} (d : List (String × α)) (k : String) : Bool :=
  (dictLookup d k).isSome

/-- Python `d[k] = v`: update in place if the key is present, else append
at the end (CPython dicts preserve insertion order). -/
def dictInsert {α : Type} : List (String × α) → String → α → List (String × α)
  | [], k, v => [(k, v)]
  | e :: es, k, v => if e.1 = k then (k, v) :: es else e :: dictInsert es k v

/-- Python `del d[k]` (and file deletion in the filesystem model). -/
def dictErase {α : Type} : List (String × α) → String → List (String × α)
  | [], _ => []
  | e :: es, k => if e.1 = k then dictErase es k else e :: dictErase es k

/-- The on-disk file store: path ↦ raw contents. -/
abbrev FileStore := List (String × String)

/-- A path names an existing file. -/
def fsExists (files : FileStore) (p : String) : Bool :=
  (dictLookup files p).isSome

/-- `Voice` (pydantic model, main.py lines 56-65). -/
structure Voice where
  id : String
  name : String
  description : String
  language : String
  created_at : String
  file_path : Option String
  duration : Option ℚ
  sample_rate : Option Nat
deriving DecidableEq, Repr

/-- `SynthesisRequest` (pydantic model, main.py lines 73-78), after
validation has succeeded. -/
structure SynthesisRequest where
  text : String
  voice_id : String
  speed : ℚ
  pitch : ℚ
deriving DecidableEq, Repr

/-- `SynthesisResponse` (pydantic model, main.py lines 80-87). -/
structure SynthesisResponse where
  id : String
  audio_url : String
  duration : Option ℚ
  voice_id : String
  text : String
  created_at : String
deriving DecidableEq, Repr

/-- An uploaded multipart file as the handler sees it: Starlette's
`UploadFile` with its declared filename, declared content type and raw
bytes (bytes modelled as a `String`). -/
structure UploadFile where
  filename : Option String
  content_type : Option String
  content : String
deriving DecidableEq, Repr

/-- `raise HTTPException(status_code=..., detail=...)` as a value. -/
structure HTTPError where
  status_code : Nat
  detail : String
deriving DecidableEq, Repr

/-- The whole mutable state of the process: the two global dicts
(main.py lines 97-98) plus the storage tree. -/
structure ServerState where
  voices_db : List (String × Voice)
  synthesis_cache : List (String × SynthesisResponse)
  files : FileStore
deriving DecidableEq, Repr

/-- Final component of a path (Python `Path(p).name`): everything after
the last slash. -/
def pathName (p : String) : String :=
  String.mk ((p.data.reverse.takeWhile (fun c => c != '/')).reverse)

/-- Python `Path(p).suffix`: the extension of the final component,
including the dot; empty when the name has no interior dot
(pathlib: `i = name.rfind('.'); name[i:] if 0 < i < len(name) - 1 else ''`). -/
def pathSuffix (p : String) : String :=
  let name := (pathName p).data
  let t := name.reverse.takeWhile (fun c => c != '.')
  if t.length = name.length then ""
  else
    let i := name.length - 1 - t.length
    if 0 < i ∧ i < name.length - 1 then String.mk (name.drop i) else ""

/-- Python `str.lower()` (character-wise, as used on extensions). -/
def strToLower (s : String) : String :=
  String.mk (s.data.map Char.toLower)

/-- `VOICES_DIR` (main.py line 102), relative to the service base dir. -/
def VOICES_DIR : String := "storage/voices/"

/-- `AUDIO_DIR` as a string path for generated artifacts (main.py line 103). -/
def AUDIO_DIR_STR : String := "storage/audio/"

/-- Error raised for an unknown voice id (main.py lines 196-199, 269-272,
305-308): status 404. -/
def voiceNotFound (vid : String) : HTTPError :=
  { status_code := 404, detail := "Voice with ID " ++ vid ++ " not found" }

/-- Error raised for an unknown synthesis id (main.py lines 348-351). -/
def synthesisNotFound (sid : String) : HTTPError :=
  { status_code := 404, detail := "Synthesis with ID " ++ sid ++ " not found" }

/-- Error for an invalid upload content type (main.py lines 214-217). -/
def invalidAudio : HTTPError :=
  { status_code := 400, detail := "Invalid audio file. Supported formats: WAV, MP3, OGG, FLAC" }

/-- Error for a missing artifact file (main.py lines 370-373). -/
def audioNotFound : HTTPError :=
  { status_code := 404, detail := "Audio file not found" }

/-- FastAPI rejects a request body violating the pydantic `Field`
constraints with status 422 before the handler runs. -/
def validationError : HTTPError :=
  { status_code := 422, detail := "Request validation failed" }

/-- `get_audio_duration` (main.py lines 112-119): the placeholder always
returns `10.0`. -/
def get_audio_duration (_file_path : String) : Option ℚ :=
  some 10

/-- The content-type allow-list `valid_types` (main.py line 126). -/
def allowed_audio_types : List String :=
  ["audio/wav", "audio/mpeg", "audio/mp3", "audio/ogg", "audio/flac"]

/-- `validate_audio_file` (main.py lines 121-127): a missing (or empty,
hence falsy) content type is rejected, otherwise membership in the
allow-list decides. -/
def validate_audio_file (file : UploadFile) : Bool :=
  match file.content_type with
  | none => false
  | some ct => decide (ct ∈ allowed_audio_types)

/-- The placeholder artifact text written by `generate_synthesis_audio`
(main.py lines 137-149). -/
def synthesisContent (text voice_id : String) (speed pitch : ℚ)
    (synthesis_id now : String) : String :=
  "TxVoc Speech Synthesis\n=====================\nID: " ++ synthesis_id ++
  "\nText: " ++ text ++ "\nVoice: " ++ voice_id ++
  "\nSpeed: " ++ toString speed ++ "x\nPitch: " ++ toString pitch ++
  "x\nGenerated: " ++ now ++
  "\n\nThis is a placeholder file. In a real implementation,\nthis would be an actual audio file generated using\ntext-to-speech synthesis with the specified voice.\n"

/-- `generate_synthesis_audio` (main.py lines 129-154): writes the
placeholder text file `synthesis_<uuid>.txt` under `AUDIO_DIR` and returns
its path.  The fresh uuid is the explicit `synthesis_id` argument. -/
def generate_synthesis_audio (files : FileStore) (text voice_id : String)
    (speed pitch : ℚ) (synthesis_id now : String) : FileStore × String :=
  let output_file := AUDIO_DIR_STR ++ ("synthesis_" ++ synthesis_id ++ ".txt")
  let content := synthesisContent text voice_id speed pitch synthesis_id now
  (dictInsert files output_file content, output_file)

/-- The extension chosen for an uploaded file (main.py lines 222-226):
lower-cased suffix of the declared filename (default name `audio.wav`),
`.wav` when there is no extension. -/
def uploadExt (filename : Option String) : String :=
  let original_filename := filename.getD "audio.wav"
  let fe := strToLower (pathSuffix original_filename)
  if fe = "" then ".wav" else fe

/-- `upload_voice` = POST /voices (main.py lines 203-263).  The fresh
uuid and the timestamp are the explicit `voiceId` / `now` arguments. -/
def upload_voice (s : ServerState) (file : UploadFile)
    (name description language : String) (voiceId now : String) :
    Except HTTPError Voice × ServerState :=
  if validate_audio_file file = false then
    (Except.error invalidAudio, s)
  else
    let voice_file_path := VOICES_DIR ++ voiceId ++ uploadExt file.filename
    let files1 := dictInsert s.files voice_file_path file.content
    let voice : Voice :=
      { id := voiceId
        name := name
        description := description
        language := language
        created_at := now
        file_path := some voice_file_path
        duration := get_audio_duration voice_file_path
        sample_rate := some 22050 }
    (Except.ok voice,
     { s with voices_db := dictInsert s.voices_db voiceId voice, files := files1 })

/-- The file-removal step of `delete_voice` (main.py lines 278-282):
`if voice.file_path:` is Python truthiness, so `None` and the empty
string are skipped; `if file_path.exists(): file_path.unlink()` makes
deletion of an absent file a no-op. -/
def deleteBackingFile (files : FileStore) (voice : Voice) : FileStore :=
  match voice.file_path with
  | none => files
  | some p => if p = "" then files else dictErase files p

/-- `delete_voice` = DELETE /voices/{voice_id} (main.py lines 265-295). -/
def delete_voice (s : ServerState) (voice_id : String) :
    Except HTTPError String × ServerState :=
  match dictLookup s.voices_db voice_id with
  | none => (Except.error (voiceNotFound voice_id), s)
  | some voice =>
    (Except.ok ("Voice " ++ voice.name ++ " deleted successfully"),
     { s with voices_db := dictErase s.voices_db voice_id
              files := deleteBackingFile s.files voice })

/-- `get_voices` = GET /voices (main.py lines 186-190). -/
def list_voices (s : ServerState) : List Voice :=
  s.voices_db.map (fun e => e.2)

/-- `get_voice` = GET /voices/{voice_id} (main.py lines 192-201). -/
def get_voice (s : ServerState) (voice_id : String) : Except HTTPError Voice :=
  match dictLookup s.voices_db voice_id with
  | none => Except.error (voiceNotFound voice_id)
  | some v => Except.ok v

/-- `synthesize_speech` = POST /synthesize (main.py lines 299-342), after
request validation.  `artifactId` is the uuid drawn inside
`generate_synthesis_audio`, `jobId` the uuid for the job record. -/
def synthesize_speech (s : ServerState) (req : SynthesisRequest)
    (artifactId jobId now : String) :
    Except HTTPError SynthesisResponse × ServerState :=
  match dictLookup s.voices_db req.voice_id with
  | none => (Except.error (voiceNotFound req.voice_id), s)
  | some _ =>
    let gen := generate_synthesis_audio s.files req.text req.voice_id
        req.speed req.pitch artifactId now
    let resp : SynthesisResponse :=
      { id := jobId
        audio_url := "/audio/" ++ pathName gen.2
        duration := some ((req.text.length : ℚ) * (1 / 10))
        voice_id := req.voice_id
        text := req.text
        created_at := now }
    (Except.ok resp,
     { s with synthesis_cache := dictInsert s.synthesis_cache jobId resp
              files := gen.1 })

/-- FastAPI/pydantic request validation for `SynthesisRequest`
(main.py lines 73-78): `min_length=1`, `max_length=5000` on the text,
`ge=0.5`, `le=2.0` on speed and pitch; any violation is rejected with
status 422 before the handler runs. -/
def parseSynthesisRequest (text voice_id : String) (speed pitch : ℚ) :
    Except HTTPError SynthesisRequest :=
  if text.length < 1 ∨ 5000 < text.length then Except.error validationError
  else if speed < 1 / 2 ∨ 2 < speed then Except.error validationError
  else if pitch < 1 / 2 ∨ 2 < pitch then Except.error validationError
  else Except.ok { text := text, voice_id := voice_id, speed := speed, pitch := pitch }

/-- The full POST /synthesize endpoint: pydantic validation, then the
handler. -/
def synthesize_endpoint (s : ServerState) (text voice_id : String)
    (speed pitch : ℚ) (artifactId jobId now : String) :
    Except HTTPError SynthesisResponse × ServerState :=
  match parseSynthesisRequest text voice_id speed pitch with
  | Except.error e => (Except.error e, s)
  | Except.ok req => synthesize_speech s req artifactId jobId now

/-- `get_synthesis` = GET /synthesis/{synthesis_id} (main.py lines 344-353). -/
def get_synthesis (s : ServerState) (synthesis_id : String) :
    Except HTTPError SynthesisResponse :=
  match dictLookup s.synthesis_cache synthesis_id with
  | none => Except.error (synthesisNotFound synthesis_id)
  | some r => Except.ok r

/-- `AUDIO_DIR` as path components relative to the service base dir,
for the artifact server model. -/
def AUDIO_DIR_PARTS : List String := ["storage", "audio"]

/-- `pathlib`'s `/` on a single extra segment: a `"."` component is
dropped at construction, everything else (including `".."`) is appended. -/
def pathJoin (dir : List String) (name : String) : List String :=
  if name = "." then dir else dir ++ [name]

/-- Filesystem resolution of `"."` and `".."` components as the OS
performs it when a path is accessed (no symlinks). -/
def normAux : List String → List String → List String
  | acc, [] => acc
  | acc, c :: cs =>
    if c = "." then normAux acc cs
    else if c = ".." then normAux acc.dropLast cs
    else normAux (acc ++ [c]) cs

/-- Normalize a component path. -/
def normalizeParts (p : List String) : List String :=
  normAux [] p

/-- A path lies within a directory (the directory itself counts). -/
def isWithin (dir p : List String) : Bool :=
  dir.isPrefixOf p

/-- The audio-directory filesystem as the artifact server sees it:
existing regular files and existing directories, as component paths
relative to the service base dir. -/
structure AudioFS where
  files : List (List String)
  dirs : List (List String)
deriving DecidableEq, Repr

/-- `media_types` table and its `.get(extension, octet-stream)` default
(main.py lines 377-385). -/
def mediaTypeFor (ext : String) : String :=
  if ext = ".wav" then "audio/wav"
  else if ext = ".mp3" then "audio/mpeg"
  else if ext = ".ogg" then "audio/ogg"
  else if ext = ".flac" then "audio/flac"
  else if ext = ".txt" then "text/plain"
  else "application/octet-stream"

/-- `serve_audio` = GET /audio/{filename} (main.py lines 362-400):
`file_path = AUDIO_DIR / filename`, 404 when `file_path.exists()` is
false (a directory also exists), else a `FileResponse` of that path with
the media type chosen from the extension. -/
def serve_audio (fs : AudioFS) (filename : String) :
    Except HTTPError (List String × String) :=
  let file_path := normalizeParts (pathJoin AUDIO_DIR_PARTS filename)
  if file_path ∈ fs.files ∨ file_path ∈ fs.dirs then
    Except.ok (file_path, mediaTypeFor (strToLower (pathSuffix (file_path.getLastD ""))))
  else
    Except.error audioNotFound

/-- The seeded built-in voice (main.py lines 410-419). -/
def default_voice (now : String) : Voice :=
  { id := "default"
    name := "Default Voice"
    description := "Built-in default voice for testing"
    language := "en"
    created_at := now
    file_path := none
    duration := none
    sample_rate := some 22050 }

/-- `startup_event` (main.py lines 404-422): the state right after boot. -/
def startup_event (now : String) : ServerState :=
  { voices_db := dictInsert [] "default" (default_voice now)
    synthesis_cache := []
    files := [] }

/-- Every stored voice record is keyed by its own `id` field — an
invariant of all states the service can actually reach (uploads store
under the generated id, startup stores the default voice under
`"default"`). -/
def keysConsistent (d : List (String × Voice)) : Prop :=
  ∀ e ∈ d, e.2.id = e.1

instance keysConsistentDecidable (d : List (String × Voice)) :
    Decidable (keysConsistent d) := by
  unfold keysConsistent
  infer_instance

/-! ## Basic dictionary lemmas -/

theorem dictLookup_insert_self {α : Type} (d : List (String × α)) (k : String) (v : α) :
    dictLookup (dictInsert d k v) k = some v := by
  induction d with
  | nil => simp [dictInsert, dictLookup]
  | cons e es ih =>
    by_cases h : e.1 = k
    · simp [dictInsert, h, dictLookup]
    · simp [dictInsert, h, dictLookup, ih]

theorem dictLookup_erase_self {α : Type} (d : List (String × α)) (k : String) :
    dictLookup (dictErase d k) k = none := by
  induction d with
  | nil => simp [dictErase, dictLookup]
  | cons e es ih =>
    by_cases h : e.1 = k
    · simp [dictErase, h, ih]
    · simp [dictErase, h, dictLookup, ih]

theorem mem_dictErase {α : Type} {d : List (String × α)} {k : String} {e : String × α}
    (h : e ∈ dictErase d k) : e ∈ d ∧ e.1 ≠ k := by
  induction d with
  | nil => simp [dictErase] at h
  | cons f fs ih =>
    by_cases hf : f.1 = k
    · rw [dictErase, if_pos hf] at h
      obtain ⟨h1, h2⟩ := ih h
      exact ⟨List.mem_cons_of_mem _ h1, h2⟩
    · rw [dictErase, if_neg hf] at h
      rcases List.mem_cons.mp h with h | h
      · subst h; exact ⟨List.mem_cons_self _ _, hf⟩
      · obtain ⟨h1, h2⟩ := ih h
        exact ⟨List.mem_cons_of_mem _ h1, h2⟩

/-! ## Concrete states used by the witnesses -/

/-- The state right after startup, timestamp `"t0"`: only the seeded
default voice. -/
def startupState : ServerState := startup_event "t0"

/-- A well-formed synthesize request for the startup scenario of the spec. -/
def reqHello : SynthesisRequest :=
  { text := "hello", voice_id := "default", speed := 1, pitch := 1 }

/-- The job record produced by synthesizing `"hello"` with artifact uuid
`"a1"`, job uuid `"j1"` at time `"t1"`. -/
def respHello : SynthesisResponse :=
  { id := "j1"
    audio_url := "/audio/synthesis_a1.txt"
    duration := some (("hello".length : ℚ) * (1 / 10))
    voice_id := "default"
    text := "hello"
    created_at := "t1" }

/-- The server state after that synthesis. -/
def afterHello : ServerState :=
  (synthesize_speech startupState reqHello "a1" "j1" "t1").2

/-- A valid `.wav` upload. -/
def goodFile : UploadFile :=
  { filename := some "a.wav", content_type := some "audio/wav", content := "RIFFbytes" }

/-- An upload whose declared content type is not audio. -/
def badFile : UploadFile :=
  { filename := some "a.txt", content_type := some "text/plain", content := "hello" }

/-- An upload whose declared filename carries an upper-case extension. -/
def fileUpper : UploadFile :=
  { filename := some "b.WAV", content_type := some "audio/wav", content := "RIFFbytes" }

/-- A registered voice owning a backing file, for the delete scenario. -/
def vDemo : Voice :=
  { id := "v1"
    name := "Demo"
    description := ""
    language := "en"
    created_at := "t0"
    file_path := some "storage/voices/v1.wav"
    duration := some 10
    sample_rate := some 22050 }

/-- A state holding `vDemo` and its backing file. -/
def sDemo : ServerState :=
  { voices_db := [("v1", vDemo)]
    synthesis_cache := []
    files := [("storage/voices/v1.wav", "RIFFbytes")] }

/-! ## C1 -/

/-- C1: a synthesize request whose `voice_id` is not a key of the voice
table fails with the 404 not-found error, and the state — in particular
the synthesis job table and the artifact files — is returned unchanged. -/
theorem synthesize_unknown_voice_fails (s : ServerState) (req : SynthesisRequest)
    (artifactId jobId now : String)
    (h : dictLookup s.voices_db req.voice_id = none) :
    synthesize_speech s req artifactId jobId now =
      (Except.error (voiceNotFound req.voice_id), s) ∧
    (voiceNotFound req.voice_id).status_code = 404 := by
  refine ⟨?_, rfl⟩
  simp [synthesize_speech, h]

/-- C1 witness: synthesizing with the unregistered id `"ghost"` on the
startup state. -/
theorem synthesize_unknown_voice_fails_witness :
    synthesize_speech startupState
        { text := "hi", voice_id := "ghost", speed := 1, pitch := 1 } "a" "j" "t" =
      (Except.error (voiceNotFound "ghost"), startupState) ∧
    (voiceNotFound "ghost").status_code = 404 :=
  synthesize_unknown_voice_fails startupState
    { text := "hi", voice_id := "ghost", speed := 1, pitch := 1 } "a" "j" "t" rfl

/-! ## C2 -/

/-- C2: every job returned by a successful synthesize carries the duration
estimate `len(text) * 0.1`. -/
theorem synthesize_duration_estimate (s : ServerState) (req : SynthesisRequest)
    (artifactId jobId now : String) (resp : SynthesisResponse) (s1 : ServerState)
    (h : synthesize_speech s req artifactId jobId now = (Except.ok resp, s1)) :
    resp.duration = some ((req.text.length : ℚ) * (1 / 10)) := by
  rcases hv : dictLookup s.voices_db req.voice_id with _ | v
  · simp [synthesize_speech, hv] at h
  · simp only [synthesize_speech, hv] at h
    obtain ⟨h1, -⟩ := Prod.mk.injEq _ _ _ _ ▸ h
    obtain rfl := (Except.ok.injEq _ _ ▸ h1)
    rfl

/-- C2 witness: synthesizing the 5-character text `"hello"` yields the
duration estimate `0.5`. -/
theorem synthesize_duration_estimate_witness : respHello.duration = some (1 / 2 : ℚ) := by
  have h : synthesize_speech startupState reqHello "a1" "j1" "t1" =
      (Except.ok respHello, afterHello) := rfl
  have hd := synthesize_duration_estimate startupState reqHello "a1" "j1" "t1"
    respHello afterHello h
  rw [hd]
  show some (((5 : ℕ) : ℚ) * (1 / 10)) = some (1 / 2 : ℚ)
  norm_num

/-! ## C7 -/

/-- C7: every job returned by a successful synthesize is immediately
retrievable via GET /synthesis/{id} under its own id, with the identical
record (hence identical id, audio_url, duration, voice_id, text and
created_at fields). -/
theorem synthesize_get_roundtrip (s : ServerState) (req : SynthesisRequest)
    (artifactId jobId now : String) (resp : SynthesisResponse) (s1 : ServerState)
    (h : synthesize_speech s req artifactId jobId now = (Except.ok resp, s1)) :
    get_synthesis s1 resp.id = Except.ok resp := by
  rcases hv : dictLookup s.voices_db req.voice_id with _ | v
  · simp [synthesize_speech, hv] at h
  · simp only [synthesize_speech, hv] at h
    obtain ⟨h1, h2⟩ := Prod.mk.injEq _ _ _ _ ▸ h
    obtain rfl := (Except.ok.injEq _ _ ▸ h1)
    subst h2
    simp [get_synthesis, dictLookup_insert_self]

/-- C7 witness: the `"hello"` job is retrievable under its id `"j1"`. -/
theorem synthesize_get_roundtrip_witness :
    get_synthesis afterHello "j1" = Except.ok respHello := by
  have h : synthesize_speech startupState reqHello "a1" "j1" "t1" =
      (Except.ok respHello, afterHello) := rfl
  exact synthesize_get_roundtrip startupState reqHello "a1" "j1" "t1" respHello afterHello h

/-! ## C9 -/

/-- C9: deleting a voice never touches the synthesis job table, whether
the delete succeeds or fails, and regardless of which jobs reference the
deleted id. -/
theorem delete_voice_preserves_jobs (s : ServerState) (voice_id : String) :
    ((delete_voice s voice_id).2).synthesis_cache = s.synthesis_cache := by
  rcases h : dictLookup s.voices_db voice_id with _ | v <;>
    simp [delete_voice, h]

/-! ## C3 -/

/-- C3: deleting an absent id fails with the 404 not-found error and
changes nothing; deleting a present id succeeds, removes the record (its
id no longer appears in List results, given the reachable-state invariant
that records are keyed by their own id), deletes the backing file when the
record names one (whether or not the file actually exists — absence is
ignored, not an error), and a second delete of the same id fails with 404. -/
theorem delete_voice_spec (s : ServerState) (voice_id : String)
    (hk : keysConsistent s.voices_db) :
    (dictLookup s.voices_db voice_id = none →
       delete_voice s voice_id = (Except.error (voiceNotFound voice_id), s)) ∧
    (∀ v, dictLookup s.voices_db voice_id = some v →
       (delete_voice s voice_id).1 =
         Except.ok ("Voice " ++ v.name ++ " deleted successfully") ∧
       dictLookup ((delete_voice s voice_id).2).voices_db voice_id = none ∧
       (∀ w ∈ list_voices ((delete_voice s voice_id).2), w.id ≠ voice_id) ∧
       (∀ p, v.file_path = some p → p ≠ "" →
          fsExists ((delete_voice s voice_id).2).files p = false) ∧
       delete_voice ((delete_voice s voice_id).2) voice_id =
         (Except.error (voiceNotFound voice_id), (delete_voice s voice_id).2)) := by
  constructor
  · intro h
    simp [delete_voice, h]
  · intro v hv
    have hd : delete_voice s voice_id =
        (Except.ok ("Voice " ++ v.name ++ " deleted successfully"),
         { s with voices_db := dictErase s.voices_db voice_id
                  files := deleteBackingFile s.files v }) := by
      simp [delete_voice, hv]
    refine ⟨?_, ?_, ?_, ?_, ?_⟩
    · rw [hd]
    · rw [hd]
      exact dictLookup_erase_self s.voices_db voice_id
    · intro w hw
      rw [hd] at hw
      simp only [list_voices, List.mem_map] at hw
      obtain ⟨e, he, rfl⟩ := hw
      obtain ⟨hmem, hne⟩ := mem_dictErase he
      rw [hk e hmem]
      exact hne
    · intro p hp hne
      rw [hd]
      show fsExists (deleteBackingFile s.files v) p = false
      simp [deleteBackingFile, hp, hne, fsExists, dictLookup_erase_self]
    · rw [hd]
      have h2 : dictLookup (dictErase s.voices_db voice_id) voice_id = none :=
        dictLookup_erase_self s.voices_db voice_id
      simp [delete_voice, h2]

/-- C3 witness: deleting the registered voice `"v1"` from `sDemo` removes
the record and its backing file, and a second delete yields 404. -/
theorem delete_voice_spec_witness :
    dictLookup ((delete_voice sDemo "v1").2).voices_db "v1" = none ∧
    fsExists ((delete_voice sDemo "v1").2).files "storage/voices/v1.wav" = false ∧
    delete_voice ((delete_voice sDemo "v1").2) "v1" =
      (Except.error (voiceNotFound "v1"), (delete_voice sDemo "v1").2) := by
  have h := (delete_voice_spec sDemo "v1" (by decide)).2 vDemo (by decide)
  exact ⟨h.2.1, h.2.2.2.1 "storage/voices/v1.wav" rfl (by decide), h.2.2.2.2⟩

/-! ## C4 -/

/-- C4: an upload whose declared content type is missing or outside the
allow-list {audio/wav, audio/mpeg, audio/mp3, audio/ogg, audio/flac}
fails with the 400 invalid-input error and leaves the whole state — in
particular the voice table — unchanged. -/
theorem upload_invalid_content_type (s : ServerState) (file : UploadFile)
    (name description language voiceId now : String)
    (h : ∀ ct, file.content_type = some ct → ct ∉ allowed_audio_types) :
    upload_voice s file name description language voiceId now =
      (Except.error invalidAudio, s) ∧
    invalidAudio.status_code = 400 := by
  refine ⟨?_, rfl⟩
  have hval : validate_audio_file file = false := by
    rcases hct : file.content_type with _ | ct
    · simp [validate_audio_file, hct]
    · simp [validate_audio_file, hct, h ct hct]
  simp [upload_voice, hval]

/-- C4 witness: a `text/plain` upload on the startup state is rejected
and registers nothing. -/
theorem upload_invalid_content_type_witness :
    upload_voice startupState badFile "n" "" "en" "id9" "t9" =
      (Except.error invalidAudio, startupState) ∧
    invalidAudio.status_code = 400 := by
  refine upload_invalid_content_type startupState badFile "n" "" "en" "id9" "t9" ?_
  intro ct hct
  cases hct
  decide

/-! ## C8 -/

/-- Any violated pydantic bound makes `parseSynthesisRequest` fail with
the 422 validation error. -/
theorem parse_invalid_422 (text voice_id : String) (speed pitch : ℚ)
    (h : text.length = 0 ∨ 5000 < text.length ∨
         speed < 1 / 2 ∨ 2 < speed ∨ pitch < 1 / 2 ∨ 2 < pitch) :
    parseSynthesisRequest text voice_id speed pitch = Except.error validationError := by
  unfold parseSynthesisRequest
  split_ifs with h1 h2 h3
  · rfl
  · rfl
  · rfl
  · exfalso
    push_neg at h1 h2 h3
    rcases h with h | h | h | h | h | h
    · omega
    · omega
    · linarith [h2.1]
    · linarith [h2.2]
    · linarith [h3.1]
    · linarith [h3.2]

/-- C8: a synthesize request with empty text, text longer than 5000
characters, or speed or pitch outside [0.5, 2.0] is rejected with status
422 before the handler runs: the returned state is the original one, so
no job record is added and no artifact file is written. -/
theorem synthesize_validation_422 (s : ServerState) (text voice_id : String)
    (speed pitch : ℚ) (artifactId jobId now : String)
    (h : text.length = 0 ∨ 5000 < text.length ∨
         speed < 1 / 2 ∨ 2 < speed ∨ pitch < 1 / 2 ∨ 2 < pitch) :
    synthesize_endpoint s text voice_id speed pitch artifactId jobId now =
      (Except.error validationError, s) ∧
    validationError.status_code = 422 := by
  refine ⟨?_, rfl⟩
  simp [synthesize_endpoint, parse_invalid_422 text voice_id speed pitch h]

/-- C8 witness: the empty text is rejected with 422 on the startup state. -/
theorem synthesize_validation_422_witness :
    synthesize_endpoint startupState "" "default" 1 1 "a" "j" "t" =
      (Except.error validationError, startupState) ∧
    validationError.status_code = 422 :=
  synthesize_validation_422 startupState "" "default" 1 1 "a" "j" "t" (Or.inl rfl)

/-! ## C10 -/

/-- C10: every voice record created by a successful upload has its
duration field set to the placeholder constant `10.0` — never unset,
never another value. -/
theorem upload_duration_placeholder (s : ServerState) (file : UploadFile)
    (name description language voiceId now : String)
    (v : Voice) (s1 : ServerState)
    (h : upload_voice s file name description language voiceId now = (Except.ok v, s1)) :
    v.duration = some (10 : ℚ) := by
  by_cases hval : validate_audio_file file = false
  · simp [upload_voice, hval] at h
  · simp only [upload_voice, if_neg hval] at h
    obtain ⟨h1, -⟩ := Prod.mk.injEq _ _ _ _ ▸ h
    obtain rfl := (Except.ok.injEq _ _ ▸ h1)
    rfl

/-- C10 witness: a concrete valid upload gets duration `10.0`. -/
theorem upload_duration_placeholder_witness :
    ((upload_voice startupState goodFile "Custom Voice" "" "en" "v1" "t1").1.toOption.getD
       (default_voice "x")).duration = some (10 : ℚ) :=
  upload_duration_placeholder startupState goodFile "Custom Voice" "" "en" "v1" "t1"
    ((upload_voice startupState goodFile "Custom Voice" "" "en" "v1" "t1").1.toOption.getD
       (default_voice "x"))
    (upload_voice startupState goodFile "Custom Voice" "" "en" "v1" "t1").2 rfl

/-! ## C5 -/

/-- C5 counterexample: uploading a valid file declared as `b.WAV` stores
the bytes under `<id>.wav` — the lower-cased extension — not under the
original extension `<id>.WAV`; so the file is not named by the id plus the
original filename's extension as the claim states. -/
theorem upload_extension_cex :
    (upload_voice startupState fileUpper "n" "" "en" "id1" "t1").1 =
      Except.ok
        { id := "id1"
          name := "n"
          description := ""
          language := "en"
          created_at := "t1"
          file_path := some "storage/voices/id1.wav"
          duration := some 10
          sample_rate := some 22050 } ∧
    fsExists ((upload_voice startupState fileUpper "n" "" "en" "id1" "t1").2).files
      "storage/voices/id1.WAV" = false ∧
    fsExists ((upload_voice startupState fileUpper "n" "" "en" "id1" "t1").2).files
      "storage/voices/id1.wav" = true :=
  ⟨rfl, by decide, by decide⟩

/-- C5 (amended): a valid upload under a fresh id returns a record whose
id is the fresh id (absent from the registry beforehand), whose file_path
is the voices directory plus the id plus the lower-cased original
extension (`.wav` when the filename has none), whose sample_rate is
22050; the uploaded bytes are on disk at that path immediately after the
call, and the record is registered under the id. -/
theorem upload_valid_creates (s : ServerState) (file : UploadFile)
    (name description language voiceId now : String)
    (hval : validate_audio_file file = true)
    (hfresh : dictLookup s.voices_db voiceId = none) :
    (upload_voice s file name description language voiceId now).1 =
      Except.ok
        { id := voiceId
          name := name
          description := description
          language := language
          created_at := now
          file_path := some (VOICES_DIR ++ voiceId ++ uploadExt file.filename)
          duration := some 10
          sample_rate := some 22050 } ∧
    dictLookup s.voices_db voiceId = none ∧
    fsExists ((upload_voice s file name description language voiceId now).2).files
      (VOICES_DIR ++ voiceId ++ uploadExt file.filename) = true ∧
    dictLookup ((upload_voice s file name description language voiceId now).2).files
      (VOICES_DIR ++ voiceId ++ uploadExt file.filename) = some file.content ∧
    dictLookup ((upload_voice s file name description language voiceId now).2).voices_db
      voiceId =
      some
        { id := voiceId
          name := name
          description := description
          language := language
          created_at := now
          file_path := some (VOICES_DIR ++ voiceId ++ uploadExt file.filename)
          duration := some 10
          sample_rate := some 22050 } := by
  have hne : ¬ validate_audio_file file = false := by simp [hval]
  simp only [upload_voice, if_neg hne]
  refine ⟨?_, hfresh, ?_, ?_, ?_⟩
  · simp [get_audio_duration]
  · simp [fsExists, dictLookup_insert_self]
  · simp [dictLookup_insert_self]
  · simp [dictLookup_insert_self, get_audio_duration]

/-- C5 witness: the spec scenario — uploading `a.wav` as `audio/wav`
under the fresh id `v1`. -/
theorem upload_valid_creates_witness :
    fsExists ((upload_voice startupState goodFile "Custom Voice" "" "en" "v1" "t1").2).files
      (VOICES_DIR ++ "v1" ++ uploadExt goodFile.filename) = true ∧
    dictLookup ((upload_voice startupState goodFile "Custom Voice" "" "en" "v1" "t1").2).files
      (VOICES_DIR ++ "v1" ++ uploadExt goodFile.filename) = some goodFile.content := by
  have h := upload_valid_creates startupState goodFile "Custom Voice" "" "en" "v1" "t1"
    (by decide) (by decide)
  exact ⟨h.2.2.1, h.2.2.2.1⟩

/-! ## C6 -/

/-- The storage tree as it exists on disk right after startup, with no
generated artifacts yet: the three storage directories and their parent. -/
def demoAudioFS : AudioFS :=
  { files := []
    dirs := [["storage"], ["storage", "audio"], ["storage", "temp"], ["storage", "voices"]] }

/-- C6 counterexample: requesting the filename `..` resolves to the
parent `storage` directory, which lies outside the generated-audio
directory, and the request does not fail with 404 (the directory exists),
so resolution is not strict. -/
theorem serve_audio_escape_cex :
    serve_audio demoAudioFS ".." =
      Except.ok (["storage"], "application/octet-stream") ∧
    isWithin AUDIO_DIR_PARTS ["storage"] = false :=
  ⟨rfl, rfl⟩

/-- C6 (amended): for every filename that is a single path segment (no
slash — the route only matches such names) other than `..`, the resolved
path stays within the generated-audio directory, and when no file or
directory exists at the resolved path the request fails with the 404
not-found error.  The segment `..` itself escapes to the parent
directory: the code has no explicit path-escape protection. -/
theorem serve_audio_confined (fs : AudioFS) (filename : String)
    (h1 : '/' ∉ filename.data) (h2 : filename ≠ "..") :
    isWithin AUDIO_DIR_PARTS (normalizeParts (pathJoin AUDIO_DIR_PARTS filename)) = true ∧
    (normalizeParts (pathJoin AUDIO_DIR_PARTS filename) ∉ fs.files →
     normalizeParts (pathJoin AUDIO_DIR_PARTS filename) ∉ fs.dirs →
     serve_audio fs filename = Except.error audioNotFound) := by
  by_cases hdot : filename = "."
  · subst hdot
    refine ⟨by decide, ?_⟩
    intro hf hd
    simp [serve_audio, hf, hd]
  · have hjoin : pathJoin AUDIO_DIR_PARTS filename = ["storage", "audio", filename] := by
      simp [pathJoin, hdot, AUDIO_DIR_PARTS]
    have hnorm : normalizeParts (pathJoin AUDIO_DIR_PARTS filename) =
        ["storage", "audio", filename] := by
      rw [hjoin]
      show normAux ["storage", "audio"] [filename] = _
      simp [normAux, hdot, h2]
    constructor
    · rw [hnorm]
      simp [isWithin, AUDIO_DIR_PARTS, List.isPrefixOf]
    · intro hf hd
      simp [serve_audio, hf, hd]

/-- C6 witness: the spec scenario GET /audio/does-not-exist.wav resolves
inside the audio directory and yields 404 on the startup filesystem. -/
theorem serve_audio_confined_witness :
    isWithin AUDIO_DIR_PARTS
      (normalizeParts (pathJoin AUDIO_DIR_PARTS "does-not-exist.wav")) = true ∧
    serve_audio demoAudioFS "does-not-exist.wav" = Except.error audioNotFound := by
  have h := serve_audio_confined demoAudioFS "does-not-exist.wav" (by decide) (by decide)
  exact ⟨h.1, h.2 (by decide) (by decide)⟩
